import Mathlib

/-!
Verification of the astronomia-galaxy-api core pipeline.

This file gives a shallow embedding, in Lean 4, of the resolve → acquire →
analyze pipeline of the repository:

* `packages/galaxy_agent/orchestrator.py` — attempt planning and the
  acquisition fallback loop (`_resolve_fetch_and_download`), and the event
  stream (`run_stream`);
* `packages/galaxy_agent/agent_runner.py` — the public streaming entry point;
* `packages/galaxy_core/application/resolve_and_fetch_service.py` — target
  resolution and survey selection;
* `packages/galaxy_core/infrastructure/sdss_client.py` — the fast-path URL
  builder;
* `packages/galaxy_core/infrastructure/sesame_client.py` — the name resolver;
* `packages/galaxy_core/application/analyzer_service.py` and
  `packages/galaxy_core/infrastructure/synthetic.py` — the analysis stage.

Python floats are embedded as exact rationals (ℚ); the arithmetic in the
claims (modulo, clamping, decimal rounding, means) is exact on the inputs of
interest.  Network effects are embedded as explicit oracles ("worlds") passed
to each function, together with a trace of the network calls performed.
Transcendental functions reached by the embedded code (`np.exp` in the
synthetic image, the square root inside `np.std`) are abstracted as function
parameters; no verified statement depends on their values.
-/

namespace Galaxy

/-! ### Python string primitives

Python `str.strip` / `str.lower` and truthiness, embedded over ASCII
(the repository only compares ASCII keywords).
-/

/-- Whitespace characters of Python `str.strip` / `\s` (ASCII range). -/
def isPyWs (c : Char) : Bool :=
  c = ' ' || c = '\t' || c = '\n' || c = '\r' || c = '\x0b' || c = '\x0c'

/-- Python `str.strip()` (ASCII whitespace). -/
def pystrip (s : String) : String :=
  ⟨((s.data.dropWhile isPyWs).reverse.dropWhile isPyWs).reverse⟩

/-- Python `str.lower()` (ASCII letters). -/
def pylower (s : String) : String :=
  ⟨s.data.map Char.toLower⟩

/-- Python `str.upper()` (ASCII letters). -/
def pyupper (s : String) : String :=
  ⟨s.data.map Char.toUpper⟩

/-- Python truthiness of an optional string: `None` and `""` are falsy. -/
def pyTruthy : Option String → Bool
  | none => false
  | some s => !s.isEmpty

/-! ### SourceAttemptPlanner

Embedding of the attempt-list construction in
`TaskOrchestrator._resolve_fetch_and_download`
(`packages/galaxy_agent/orchestrator.py`, lines 184–199).
An attempt is a pair `(catalog?, band?)`.
-/

/-- Acquisition attempt: `(catalog, band)`, mirroring the Python tuples. -/
def Attempt := Option String × Option String
deriving DecidableEq

/-- Attempt planning from `_resolve_fetch_and_download`: an explicit catalog
hint wins; an optical/visible band prepends the SDSS fast path; any other
truthy band is a single generic-survey attempt; no hints default to SDSS. -/
def plan (catalog_opt band_opt : Option String) : List Attempt :=
  if pyTruthy catalog_opt then
    [(some (pystrip (catalog_opt.getD "")), none)]
  else if pyTruthy band_opt then
    let band_str := pystrip (band_opt.getD "")
    let band_lower := pylower band_str
    (if band_lower = "visible" || band_lower = "optical" then
      [((some "SDSS" : Option String), (none : Option String))]
    else []) ++ [(none, some band_str)]
  else
    [(some "SDSS", none)]

/-- Restatement of the amended C1 policy, written from the spec side: hints
are interpreted by Python truthiness (an empty string counts as unset) and the
produced attempts carry the trimmed hint text. Compared against `plan`. -/
def planSpec (catalogHint bandHint : Option String) : List Attempt :=
  match catalogHint.filter (fun s => !s.isEmpty),
        bandHint.filter (fun s => !s.isEmpty) with
  | some c, _ => [(some (pystrip c), none)]
  | none, some b =>
      if pylower (pystrip b) = "visible" ∨ pylower (pystrip b) = "optical" then
        [(some "SDSS", none), (none, some (pystrip b))]
      else
        [(none, some (pystrip b))]
  | none, none => [(some "SDSS", none)]

/-- C1 (counterexample): with the band hint `" Visible "` the planner takes
the visible branch on the trimmed, lowered text and emits the trimmed band
`"Visible"` in the fallback attempt — neither attempt list the claim allows
for this hint (two attempts ending in `(none, bandHint)` had the hint
compared case-insensitively to `"visible"`, else the single attempt
`(none, bandHint)`) is produced. -/
theorem plan_counterexample :
    plan none (some " Visible ")
        = [(some "SDSS", none), (none, some "Visible")] ∧
    plan none (some " Visible ")
        ≠ [(some "SDSS", none), (none, some " Visible ")] ∧
    plan none (some " Visible ") ≠ [(none, some " Visible ")] := by
  refine ⟨by decide, by decide, by decide⟩

/-- C1 (amended): attempt planning matches the four-case policy with hints
read by Python truthiness and carried in trimmed form, and the planned
attempt list is never empty. -/
theorem plan_matches_spec (c b : Option String) :
    plan c b = planSpec c b ∧ plan c b ≠ [] := by
  constructor
  · cases c with
    | none =>
        cases b with
        | none => rfl
        | some bs =>
            by_cases hb : bs.isEmpty <;>
              simp [plan, planSpec, pyTruthy, Option.filter, hb] <;>
              by_cases hv : pylower (pystrip bs) = "visible" <;>
                by_cases ho : pylower (pystrip bs) = "optical" <;>
                  simp [hv, ho]
    | some cs =>
        cases b with
        | none =>
            by_cases hc : cs.isEmpty <;>
              simp [plan, planSpec, pyTruthy, Option.filter, hc]
        | some bs =>
            by_cases hc : cs.isEmpty <;>
              by_cases hb : bs.isEmpty <;>
                simp [plan, planSpec, pyTruthy, Option.filter, hc, hb] <;>
                by_cases hv : pylower (pystrip bs) = "visible" <;>
                  by_cases ho : pylower (pystrip bs) = "optical" <;>
                    simp [hv, ho]
  · cases c with
    | none =>
        cases b with
        | none => simp [plan, pyTruthy]
        | some bs =>
            by_cases hb : bs.isEmpty <;>
              simp [plan, pyTruthy, hb] <;> split <;> simp
    | some cs =>
        cases b with
        | none =>
            by_cases hc : cs.isEmpty <;> simp [plan, pyTruthy, hc]
        | some bs =>
            by_cases hc : cs.isEmpty <;> by_cases hb : bs.isEmpty <;>
              simp [plan, pyTruthy, hc, hb] <;> split <;> simp

/-! ### Numeric primitives

Python float arithmetic embedded over exact rationals: `%` for a positive
modulus, and `round(x, n)` (banker's rounding to `n` decimal places).
-/

/-- Python `a % m` on floats, for the positive modulus used by the code. -/
def pymod (a m : ℚ) : ℚ := a - m * ⌊a / m⌋

/-- Round to the nearest integer, ties to even — the tie rule of Python
`round`. -/
def roundHalfEven (q : ℚ) : ℤ :=
  let f := ⌊q⌋
  let r := q - f
  if r < 1/2 then f
  else if 1/2 < r then f + 1
  else if f % 2 = 0 then f else f + 1

/-- Python `round(q, n)` for `n` decimal places. -/
def pyRound (q : ℚ) (n : ℕ) : ℚ := (roundHalfEven (q * 10 ^ n) : ℚ) / 10 ^ n

/-- pymod is the modulus times the fractional part of the quotient. -/
theorem pymod_eq_mul_fract (a m : ℚ) (hm : m ≠ 0) :
    pymod a m = m * Int.fract (a / m) := by
  unfold pymod Int.fract
  field_simp

/-- pymod lands in `[0, m)` for a positive modulus. -/
theorem pymod_mem_Ico (a m : ℚ) (hm : 0 < m) :
    0 ≤ pymod a m ∧ pymod a m < m := by
  rw [pymod_eq_mul_fract a m (ne_of_gt hm)]
  constructor
  · exact mul_nonneg (le_of_lt hm) (Int.fract_nonneg _)
  · calc m * Int.fract (a / m) < m * 1 :=
          (mul_lt_mul_left hm).mpr (Int.fract_lt_one _)
    _ = m := mul_one m

/-! ### Fast-path (SDSS) URL builder

Embedding of `get_image_url` in
`packages/galaxy_core/infrastructure/sdss_client.py` (lines 21–45).
The URL is the fixed cutout endpoint with these query parameters; the
embedding keeps the parameters structured instead of URL-encoding them.
-/

/-- Fixed SDSS cutout endpoint (`SDSS_IMG_CUTOUT` in the source). -/
def SDSS_IMG_CUTOUT : String :=
  "https://skyserver.sdss.org/dr18/SkyServerWS/ImgCutout/getjpeg"

/-- Default pixel dimension (`DEFAULT_PIXELS` in the source). -/
def DEFAULT_PIXELS : ℤ := 300

/-- Query parameters of the SDSS JPEG cutout GET request. -/
structure SdssQuery where
  ra : ℚ
  dec : ℚ
  scale : ℚ
  width : ℤ
  height : ℤ
deriving DecidableEq

/-- Embedding of `sdss_client.get_image_url`: normalize RA by modulo 360, clamp Dec,
clamp the pixel count, derive and clamp the plate scale, and round the
encoded parameters — `round(ra, 6)`, `round(dec, 6)`, `round(scale, 4)`
(lines 38–44 of the source; the spec's 4-decimal rounding for dec does not
match the code). -/
def get_image_url (ra_deg dec_deg size_arcmin : ℚ) (pixels : ℤ) : SdssQuery :=
  let ra := pymod ra_deg 360
  let dec := max (-90) (min 90 dec_deg)
  let px := max 64 (min 2048 pixels)
  let scale0 := size_arcmin * 60 / (px : ℚ)
  let scale := max (15/1000) (min 60 scale0)
  { ra := pyRound ra 6
    dec := pyRound dec 6
    scale := pyRound scale 4
    width := px
    height := px }

/-- C5 (counterexample): the code rounds dec to 6 decimal places
(`round(dec, 6)`, `sdss_client.py` line 40), not the 4 the claim states:
for dec `1/64 = 0.015625` the emitted parameter is `0.015625` itself, while
4-decimal rounding would give `0.0156`. -/
theorem get_image_url_dec_counterexample :
    (get_image_url 0 (1/64) 10 300).dec = 1/64 ∧
    pyRound (1/64) 4 = 39/2500 ∧
    (1 : ℚ)/64 ≠ 39/2500 := by
  refine ⟨?_, ?_, by norm_num⟩
  · show pyRound (max (-90) (min 90 ((1:ℚ)/64))) 6 = 1/64
    have h1 : max (-90) (min 90 ((1:ℚ)/64)) = 1/64 := by norm_num
    rw [h1]
    norm_num [pyRound, roundHalfEven, Int.floor_eq_iff]
  · norm_num [pyRound, roundHalfEven, Int.floor_eq_iff]

/-- C5 (amended): the SDSS URL builder normalizes RA into `[0, 360)` by
modulo 360 (370 ↦ 10), clamps Dec to `[-90, 90]` (95 ↦ 90), clamps the
pixel dimension to `[64, 2048]` (with the default 300 kept at 300), derives
the scale as `size_arcmin * 60 / pixels` clamped to `[0.015, 60]`, and
rounds the encoded parameters to 6 decimals (ra and dec) and 4 decimals
(scale). -/
theorem get_image_url_spec (ra dec size : ℚ) (px : ℤ) :
    (0 ≤ pymod ra 360 ∧ pymod ra 360 < 360) ∧
    (get_image_url ra dec size px).ra = pyRound (pymod ra 360) 6 ∧
    (get_image_url ra dec size px).dec = pyRound (max (-90) (min 90 dec)) 6 ∧
    (-90 ≤ max (-90) (min 90 dec) ∧ max (-90) (min 90 dec) ≤ 90) ∧
    (get_image_url ra dec size px).width = max 64 (min 2048 px) ∧
    (get_image_url ra dec size px).height = (get_image_url ra dec size px).width ∧
    (64 ≤ (get_image_url ra dec size px).width ∧
      (get_image_url ra dec size px).width ≤ 2048) ∧
    (get_image_url ra dec size px).scale =
      pyRound (max (15/1000)
        (min 60 (size * 60 / ((max 64 (min 2048 px) : ℤ) : ℚ)))) 4 ∧
    (15/1000 ≤ max (15/1000)
        (min 60 (size * 60 / ((max 64 (min 2048 px) : ℤ) : ℚ))) ∧
      max (15/1000)
        (min 60 (size * 60 / ((max 64 (min 2048 px) : ℤ) : ℚ))) ≤ 60) ∧
    (get_image_url ra dec size DEFAULT_PIXELS).width = 300 ∧
    (get_image_url 370 0 10 300).ra = 10 ∧
    (get_image_url 0 95 10 300).dec = 90 := by
  refine ⟨pymod_mem_Ico ra 360 (by norm_num), rfl, rfl,
    ⟨le_max_left _ _, max_le (by norm_num) (min_le_left _ _)⟩, rfl, rfl,
    ⟨le_max_left _ _, max_le (by norm_num) (min_le_left _ _)⟩, rfl,
    ⟨le_max_left _ _, max_le (by norm_num) (min_le_left _ _)⟩,
    ?_, ?_, ?_⟩
  · show max 64 (min 2048 DEFAULT_PIXELS) = 300
    norm_num [DEFAULT_PIXELS]
  · show pyRound (pymod 370 360) 6 = 10
    have h1 : pymod 370 360 = 10 := by
      norm_num [pymod, Int.floor_eq_iff]
    rw [h1]
    norm_num [pyRound, roundHalfEven, Int.floor_eq_iff]
  · show pyRound (max (-90) (min 90 (95:ℚ))) 6 = 90
    have h1 : max (-90) (min 90 (95:ℚ)) = 90 := by norm_num
    rw [h1]
    norm_num [pyRound, roundHalfEven, Int.floor_eq_iff]

/-! ### Image data model

2D arrays (`np.ndarray` of rank 2) as a column count plus row-major data.
The explicit column count keeps the shapes `(0, k)` distinguishable, as they
are in numpy.  `Rect` says the data really is a rectangular array.
-/

/-- A rank-2 numpy array over ℚ entries. -/
structure Mat where
  cols : ℕ
  data : List (List ℚ)
deriving DecidableEq

/-- numpy `.shape` of a rank-2 array. -/
def Mat.shape (m : Mat) : ℕ × ℕ := (m.data.length, m.cols)

/-- Well-formedness: every row has exactly `cols` entries. -/
def Mat.Rect (m : Mat) : Prop := ∀ r ∈ m.data, r.length = m.cols

/-- Row-major flattening (`ravel`). -/
def Mat.entries (m : Mat) : List ℚ := m.data.join

/-- Embedding of `np.min` over a flattened nonempty array (0 on the empty array, which
numpy instead rejects; no verified statement touches that case). -/
def listMin : List ℚ → ℚ
  | [] => 0
  | x :: xs => xs.foldl min x

/-- Embedding of `np.max` over a flattened nonempty array. -/
def listMax : List ℚ → ℚ
  | [] => 0
  | x :: xs => xs.foldl max x

/-! ### Analysis pipeline

Embedding of `normalize_image` (`infrastructure/synthetic.py`, lines 15–20),
`np.quantile` with its default linear interpolation, and
`BasicGalaxyAnalyzer.segment_galaxy` / `measure_basic`
(`application/analyzer_service.py`).
-/

/-- Embedding of `normalize_image`: linear min-max rescale with the `1e-9` denominator
guard. -/
def normalize_image (image : Mat) : Mat :=
  let mn := listMin image.entries
  let mx := listMax image.entries
  let denom := (mx - mn) + 1/1000000000
  ⟨image.cols, image.data.map (fun row => row.map (fun v => (v - mn) / denom))⟩

/-- Insert into a sorted list (ascending). -/
def insertSorted (x : ℚ) : List ℚ → List ℚ
  | [] => [x]
  | y :: ys => if x ≤ y then x :: y :: ys else y :: insertSorted x ys

/-- Sort ascending (insertion sort). -/
def sortAsc (xs : List ℚ) : List ℚ := xs.foldr insertSorted []

/-- Embedding of `np.quantile` with the default linear interpolation, on the flattened
data. -/
def quantile (q : ℚ) (xs : List ℚ) : ℚ :=
  let s := sortAsc xs
  let n := s.length
  let h : ℚ := q * ((n : ℚ) - 1)
  let i : ℕ := (⌊h⌋).toNat
  let g : ℚ := h - (i : ℚ)
  s.getD i 0 + g * (s.getD (i + 1) (s.getD i 0) - s.getD i 0)

/-- Result of `segment_galaxy`: the mask plus the metadata dict. -/
structure SegmentationResult where
  mask : Mat
  threshold : ℚ
  mask_pixels : ℚ
  algorithm : String
deriving DecidableEq

/-- Embedding of `BasicGalaxyAnalyzer.segment_galaxy`: normalize, take the value at the
configured quantile of the normalized distribution, and threshold. -/
def segment_galaxy (threshold_quantile : ℚ) (image : Mat) : SegmentationResult :=
  let normalized := normalize_image image
  let threshold := quantile threshold_quantile normalized.entries
  let mask : Mat :=
    ⟨normalized.cols,
      normalized.data.map (fun row =>
        row.map (fun v => if threshold ≤ v then (1 : ℚ) else 0))⟩
  ⟨mask, threshold, mask.entries.sum, "quantile_threshold"⟩

/-- The only exception `measure_basic` raises itself. -/
inductive MeasureError
  | shapeMismatch
deriving DecidableEq

/-- The measurements dict returned by `measure_basic`. -/
structure Measurements where
  area_pixels : ℚ
  centroid_x : ℚ
  centroid_y : ℚ
  ellipticity : ℚ
  mean_intensity : ℚ
deriving DecidableEq

/-- Embedding of `np.argwhere(mask > 0)`: row-major list of `(y, x)` positions with a
positive entry. -/
def argwherePos (mask : Mat) : List (ℕ × ℕ) :=
  (mask.data.enum.map (fun p =>
    p.2.enum.filterMap (fun e =>
      if 0 < e.2 then some (p.1, e.1) else none))).join

/-- Mean of a list (`np.mean`); the code only applies it to nonempty data. -/
def listMean (xs : List ℚ) : ℚ := xs.sum / (xs.length : ℚ)

/-- Population variance (`np.std` squared, `ddof = 0`). -/
def listVar (xs : List ℚ) : ℚ := listMean (xs.map (fun v => (v - listMean xs) ^ 2))

/-- Embedding of `BasicGalaxyAnalyzer.measure_basic`.  `sqrtf` abstracts the square root
inside `np.std`; no verified statement depends on its values. -/
def measure_basic (sqrtf : ℚ → ℚ) (image mask : Mat) :
    Except MeasureError Measurements :=
  if image.shape ≠ mask.shape then .error .shapeMismatch
  else
    let indices := argwherePos mask
    if indices.isEmpty then .ok ⟨0, 0, 0, 0, 0⟩
    else
      let ys := indices.map (fun p => (p.1 : ℚ))
      let xs := indices.map (fun p => (p.2 : ℚ))
      let x_std := sqrtf (listVar xs) + 1/1000000000
      let y_std := sqrtf (listVar ys) + 1/1000000000
      let ellipticity := 1 - min x_std y_std / max x_std y_std
      let mean_intensity :=
        listMean (indices.map (fun p => (image.data.getD p.1 []).getD p.2 0))
      .ok ⟨(indices.length : ℚ), listMean xs, listMean ys, ellipticity,
        mean_intensity⟩

/-- An all-nonpositive mask selects no position. -/
theorem argwherePos_eq_nil (mask : Mat)
    (hz : ∀ r ∈ mask.data, ∀ v ∈ r, v = (0 : ℚ)) :
    argwherePos mask = [] := by
  unfold argwherePos
  rw [List.join_eq_nil]
  intro l hl
  rw [List.mem_map] at hl
  obtain ⟨p, hp, rfl⟩ := hl
  rw [List.filterMap_eq_nil]
  intro e he
  have hrow : p.2 ∈ mask.data := by
    have := List.mem_map_of_mem Prod.snd hp
    rwa [List.enum_map_snd] at this
  have hval : e.2 ∈ p.2 := by
    have := List.mem_map_of_mem Prod.snd he
    rwa [List.enum_map_snd] at this
  have := hz p.2 hrow e.2 hval
  simp [this]

/-- C6: on any image/mask pair of equal shape whose mask is all zero,
`measure_basic` returns the all-zero measurements and raises nothing. -/
theorem measure_basic_zero_mask (sqrtf : ℚ → ℚ) (image mask : Mat)
    (hsh : image.shape = mask.shape)
    (hz : ∀ r ∈ mask.data, ∀ v ∈ r, v = (0 : ℚ)) :
    measure_basic sqrtf image mask = .ok ⟨0, 0, 0, 0, 0⟩ := by
  unfold measure_basic
  rw [if_neg (by simp [hsh]), argwherePos_eq_nil mask hz]
  rfl

/-- C6 witness: a concrete 2×2 image with a 2×2 all-zero mask. -/
theorem measure_basic_zero_mask_witness :
    measure_basic (fun _ => 0) ⟨2, [[1, 2], [3, 4]]⟩ ⟨2, [[0, 0], [0, 0]]⟩
      = .ok ⟨0, 0, 0, 0, 0⟩ :=
  measure_basic_zero_mask (fun _ => 0) ⟨2, [[1, 2], [3, 4]]⟩
    ⟨2, [[0, 0], [0, 0]]⟩ rfl (by simp)

/-- C7: `measure_basic` fails with the shape-mismatch error exactly when the
image and mask shapes differ, and returns measurements (raising nothing)
exactly when they agree: the shape check is its only failure mode. -/
theorem measure_basic_shape_iff (sqrtf : ℚ → ℚ) (image mask : Mat)
    (hi : image.Rect) (hm : mask.Rect) :
    (measure_basic sqrtf image mask = .error .shapeMismatch
        ↔ image.shape ≠ mask.shape) ∧
    ((∃ meas, measure_basic sqrtf image mask = .ok meas)
        ↔ image.shape = mask.shape) := by
  by_cases h : image.shape = mask.shape <;>
    by_cases he : (argwherePos mask).isEmpty <;>
      simp [measure_basic, h, he]

/-- C7 witness: concrete pairs — a 1×2 image against a 2×1 mask (mismatch)
and against a 1×2 mask (match). -/
theorem measure_basic_shape_iff_witness :
    (measure_basic (fun _ => 0) ⟨2, [[1, 2]]⟩ ⟨1, [[1], [2]]⟩
        = .error .shapeMismatch
      ↔ Mat.shape ⟨2, [[1, 2]]⟩ ≠ Mat.shape ⟨1, [[1], [2]]⟩) ∧
    ((∃ meas, measure_basic (fun _ => 0) ⟨2, [[1, 2]]⟩ ⟨1, [[1], [2]]⟩
        = .ok meas)
      ↔ Mat.shape ⟨2, [[1, 2]]⟩ = Mat.shape ⟨1, [[1], [2]]⟩) :=
  measure_basic_shape_iff (fun _ => 0) ⟨2, [[1, 2]]⟩ ⟨1, [[1], [2]]⟩
    (by simp [Mat.Rect]) (by simp [Mat.Rect])

/-- C8: `segment_galaxy` is deterministic — two runs on the same image give
an identical mask and identical threshold.  In this embedding the claim is
definitional: the source function reads nothing but its arguments (no
randomness, no module state), which the embedding makes explicit. -/
theorem segment_galaxy_deterministic (q : ℚ) (i1 i2 : Mat) (h : i1 = i2) :
    (segment_galaxy q i1).mask = (segment_galaxy q i2).mask ∧
    (segment_galaxy q i1).threshold = (segment_galaxy q i2).threshold := by
  subst h
  exact ⟨rfl, rfl⟩

/-- C8 witness: two runs on a concrete 2×2 image. -/
theorem segment_galaxy_deterministic_witness :
    (segment_galaxy (3/4) ⟨2, [[1, 2], [3, 4]]⟩).mask
        = (segment_galaxy (3/4) ⟨2, [[1, 2], [3, 4]]⟩).mask ∧
    (segment_galaxy (3/4) ⟨2, [[1, 2], [3, 4]]⟩).threshold
        = (segment_galaxy (3/4) ⟨2, [[1, 2], [3, 4]]⟩).threshold :=
  segment_galaxy_deterministic (3/4) ⟨2, [[1, 2], [3, 4]]⟩
    ⟨2, [[1, 2], [3, 4]]⟩ rfl

/-! ### Synthetic image and image loading

Embedding of `create_synthetic_image` (`infrastructure/synthetic.py`,
lines 6–12) and `load_image` (`galaxy_agent/tools.py`, lines 42–59).
`expf` abstracts `np.exp`; HTTP download, file reads and PIL decoding are
oracles.
-/

/-- Embedding of `np.linspace` with endpoint, over ℚ. -/
def linspace (a b : ℚ) (n : ℕ) : List ℚ :=
  if n = 1 then [a]
  else (List.range n).map (fun i : ℕ => a + (b - a) * (i : ℚ) / ((n : ℚ) - 1))

/-- Embedding of `create_synthetic_image`: a normalized 128×128 Gaussian blob
(`sigma_x = 0.28`, `sigma_y = 0.18` on a `[-1, 1]` grid). -/
def create_synthetic_image (expf : ℚ → ℚ) : Mat :=
  let y := linspace (-1) 1 128
  let x := linspace (-1) 1 128
  let blob : Mat :=
    ⟨128, y.map (fun yv => x.map (fun xv =>
      expf (-(xv ^ 2 / (2 * (28/100) ^ 2) + yv ^ 2 / (2 * (18/100) ^ 2)))))⟩
  normalize_image blob

/-- Python `str.removeprefix("file://")` as used by `load_image`. -/
def dropFileScheme (s : String) : String :=
  if s.startsWith "file://" then s.drop 7 else s

/-- Effects available to `load_image`: HTTP GET (with `raise_for_status`
folded into the error case), local file read, and PIL grayscale decoding. -/
structure LoadWorld where
  httpGet : String → Except String (List ℕ)
  readFile : String → Except String (List ℕ)
  decodeGray : List ℕ → Except String Mat

/-- Embedding of `tools.load_image`: a missing URL yields the synthetic image; an
`http(s)` URL is downloaded; anything else is read as a local path. -/
def load_image (w : LoadWorld) (expf : ℚ → ℚ) (image_url : Option String) :
    Except String Mat :=
  match image_url with
  | none => .ok (create_synthetic_image expf)
  | some url =>
    let fetched :=
      if url.startsWith "http://" || url.startsWith "https://" then
        w.httpGet url
      else
        w.readFile (dropFileScheme url)
    match fetched with
    | .error e => .error e
    | .ok bytes => w.decodeGray bytes

/-- Lemma: `normalize_image` keeps the array shape. -/
theorem normalize_image_shape (m : Mat) : (normalize_image m).shape = m.shape := by
  simp [normalize_image, Mat.shape]

/-- The segmentation mask has the shape of the input image. -/
theorem segment_galaxy_mask_shape (q : ℚ) (m : Mat) :
    (segment_galaxy q m).mask.shape = m.shape := by
  simp [segment_galaxy, normalize_image, Mat.shape]

/-- C10: `load_image` on an absent image URL does not fail: it returns the
deterministic synthetic image, a rectangular 128×128 array (the normalized
Gaussian blob), and downstream segmentation runs on it, producing a mask of
the same 128×128 shape. -/
theorem load_image_none_synthetic (w : LoadWorld) (expf : ℚ → ℚ) (q : ℚ) :
    load_image w expf none = .ok (create_synthetic_image expf) ∧
    (create_synthetic_image expf).shape = (128, 128) ∧
    (create_synthetic_image expf).Rect ∧
    (segment_galaxy q (create_synthetic_image expf)).mask.shape = (128, 128) := by
  have hshape : (create_synthetic_image expf).shape = (128, 128) := by
    simp [create_synthetic_image, normalize_image, Mat.shape, linspace]
  refine ⟨rfl, hshape, ?_, by rw [segment_galaxy_mask_shape, hshape]⟩
  intro r hr
  have hcols : (create_synthetic_image expf).cols = 128 := by
    simp [create_synthetic_image, normalize_image]
  rw [hcols]
  simp only [create_synthetic_image, normalize_image] at hr
  rw [List.mem_map] at hr
  obtain ⟨row, hrow, rfl⟩ := hr
  rw [List.length_map]
  rw [List.mem_map] at hrow
  obtain ⟨yv, hyv, rfl⟩ := hrow
  rw [List.length_map]
  unfold linspace
  rw [if_neg (by norm_num), List.length_map, List.length_range]

/-! ### SESAME name resolver

Embedding of `resolve` in
`packages/galaxy_core/infrastructure/sesame_client.py` (lines 26–53).
With `re.MULTILINE` the anchor `^` of
`^%J\s+([+-]?[\d.]+)\s+([+-]?[\d.]+)` holds at the start of the body and
after every newline, while `\s` itself also matches newlines, so a match
starts at such an anchor position but may run across line breaks.
`re.search` returns the leftmost match, i.e. the first anchor position (in
order) where the pattern matches; the two character classes are disjoint,
so the regex never backtracks.  Python `float()` on a captured group is
`floatOfGroup` (defined on the group's alphabet `[+-]?[\d.]+`: it succeeds
exactly when the group has at least one digit and at most one dot).
-/

/-- Suffixes of the text starting just after each newline, in order of
position. -/
def tailAnchors : List Char → List (List Char)
  | [] => []
  | c :: cs => if c = '\n' then cs :: tailAnchors cs else tailAnchors cs

/-- The anchor positions of `^` under `re.MULTILINE`, as the suffixes of the
body starting there: the whole body, then after each newline. -/
def anchorSuffixes (cs : List Char) : List (List Char) :=
  cs :: tailAnchors cs

/-- The character class `[\d.]`. -/
def isDigitDot (c : Char) : Bool := c.isDigit || c = '.'

/-- Match `[+-]?[\d.]+` at the front: the captured group and the rest. -/
def grabSigned (cs : List Char) : Option (List Char × List Char) :=
  let sr : List Char × List Char :=
    match cs with
    | '+' :: t => (['+'], t)
    | '-' :: t => (['-'], t)
    | t => ([], t)
  let run := sr.2.takeWhile isDigitDot
  if run.isEmpty then none
  else some (sr.1 ++ run, sr.2.dropWhile isDigitDot)

/-- Match `%J\s+([+-]?[\d.]+)\s+([+-]?[\d.]+)` at the start of an anchor
suffix, returning the two captured groups; the `\s+` runs may contain
newlines (`\s` matches them). -/
def matchJpos (cs : List Char) : Option (List Char × List Char) :=
  match cs with
  | '%' :: 'J' :: rest =>
    if (rest.takeWhile isPyWs).isEmpty then none
    else
      match grabSigned (rest.dropWhile isPyWs) with
      | none => none
      | some (g1, r2) =>
        if (r2.takeWhile isPyWs).isEmpty then none
        else
          match grabSigned (r2.dropWhile isPyWs) with
          | none => none
          | some (g2, _) => some (g1, g2)
  | _ => none

/-- Decimal digits to a natural number. -/
def digitsToNat (ds : List Char) : ℕ :=
  ds.foldl (fun a c => 10 * a + (c.toNat - 48)) 0

/-- Python `float()` on a captured `[+-]?[\d.]+` group: defined exactly when
the group has at least one digit and at most one dot; otherwise `float`
raises `ValueError`. -/
def floatOfGroup (g : List Char) : Option ℚ :=
  let sd : Bool × List Char :=
    match g with
    | '-' :: t => (true, t)
    | '+' :: t => (false, t)
    | t => (false, t)
  let ds := sd.2
  if ds.count '.' ≤ 1 ∧ ds.any Char.isDigit then
    let intPart := ds.takeWhile (fun c => c ≠ '.')
    let fracPart := (ds.dropWhile (fun c => c ≠ '.')).drop 1
    let v : ℚ :=
      (digitsToNat intPart : ℚ) + (digitsToNat fracPart : ℚ) / 10 ^ fracPart.length
    some (if sd.1 then -v else v)
  else none

/-- A match of the claim's pattern `%J <signed decimal> <signed decimal>`
at an anchor position: because the run `[\d.]+` is maximal and must be
followed by whitespace, this holds exactly when the lenient regex matches
there and both captured groups convert. -/
def strictJpos (l : List Char) : Option (ℚ × ℚ) :=
  match matchJpos l with
  | none => none
  | some (g1, g2) =>
    match floatOfGroup g1, floatOfGroup g2 with
    | some a, some b => some (a, b)
    | _, _ => none

/-- Substring test (Python `in` on strings). -/
def containsSub (needle : List Char) : List Char → Bool
  | [] => needle.isEmpty
  | c :: cs => needle.isPrefixOf (c :: cs) || containsSub needle cs

/-- Failure modes of `sesame_client.resolve` — every one of them is raised
as a Python exception (`ValueError` except for the transport case). -/
inductive SesameError
  | invalidInput
  | notFoundNothing
  | notFoundNoLine
  | floatValueError (group : List Char)
  | network (msg : String)
deriving DecidableEq

/-- Parsing of the SESAME response body (lines 45–53 of the source): first
regex match wins; with no match, the "Nothing found" text selects the
diagnostic message; a match whose group does not convert raises the float
`ValueError`. -/
def sesameParseBody (body : String) : Except SesameError (ℚ × ℚ) :=
  match (anchorSuffixes body.data).findSome? matchJpos with
  | none =>
    if containsSub ("Nothing found").data body.data then .error .notFoundNothing
    else .error .notFoundNoLine
  | some (g1, g2) =>
    match floatOfGroup g1 with
    | none => .error (.floatValueError g1)
    | some ra =>
      match floatOfGroup g2 with
      | none => .error (.floatValueError g2)
      | some dec => .ok (ra, dec)

/-- The network as seen by the resolver: the response body for a (stripped)
name, or a transport/HTTP failure. -/
structure SesameNet where
  fetch : String → Except String String

/-- Embedding of `sesame_client.resolve`: strip the name, fail on an empty result before
any network use, fetch once, parse.  The second component counts network
requests issued. -/
def sesame_resolve (net : SesameNet) (name : String) :
    Except SesameError (ℚ × ℚ) × ℕ :=
  if pystrip name = "" then (.error .invalidInput, 0)
  else
    match net.fetch (pystrip name) with
    | .error m => (.error (.network m), 1)
    | .ok body => (sesameParseBody body, 1)

/-- A first `find?` hit on `(f ·).isSome` computes `findSome?`. -/
theorem findSome?_eq_of_find? {α β : Type} (f : α → Option β) :
    ∀ (l : List α) (a : α), l.find? (fun x => (f x).isSome) = some a →
      l.findSome? f = f a := by
  intro l
  induction l with
  | nil => intro a h; simp at h
  | cons x xs ih =>
      intro a h
      cases hfx : f x with
      | some b =>
          simp only [List.find?_cons, hfx, Option.isSome_some] at h
          cases h
          simp [List.findSome?_cons, hfx]
      | none =>
          simp only [List.find?_cons, hfx, Option.isSome_none] at h
          simp only [List.findSome?_cons, hfx]
          exact ih a h

/-- No `find?` hit on `(f ·).isSome` means `findSome?` is none. -/
theorem findSome?_eq_none_of_all {α β : Type} (f : α → Option β)
    (l : List α) (h : ∀ x ∈ l, f x = none) : l.findSome? f = none := by
  induction l with
  | nil => simp
  | cons x xs ih =>
      rw [List.findSome?_cons, h x (by simp)]
      exact ih (fun y hy => h y (by simp [hy]))

/-- Response body `"%J . ."`: the claim's pattern
`%J <signed decimal> <signed decimal>` matches at no position of it (a lone
dot is not a decimal). -/
def netDot : SesameNet := ⟨fun _ => .ok "%J . ."⟩

/-- C9 (counterexample): on the body `"%J . ."` — which contains no line
matching `%J <signed decimal> <signed decimal>` — the resolver does not
fail with either NotFound error: the lenient regex matches the lone dots
and `float(".")` raises an uncaught `ValueError`. -/
theorem sesame_resolve_counterexample :
    ((anchorSuffixes ("%J . .").data).all (fun l => (strictJpos l).isNone)) = true ∧
    (sesame_resolve netDot "M81").1 = .error (.floatValueError ['.']) ∧
    (sesame_resolve netDot "M81").1 ≠ .error .notFoundNothing ∧
    (sesame_resolve netDot "M81").1 ≠ .error .notFoundNoLine := by
  have h : (sesame_resolve netDot "M81").1 = .error (.floatValueError ['.']) := rfl
  exact ⟨by decide, h, by rw [h]; simp, by rw [h]; simp⟩

/-- C9 (amended): the resolver fails `InvalidInput` with no network request
for names empty after trimming; after one request, a body in which the
lenient regex `%J\s+[+-]?[\d.]+\s+[+-]?[\d.]+` matches at no anchor
position (line start; its whitespace may span newlines) fails `NotFound`
(the "Nothing found" text only selects the diagnostic variant); when the
regex first matches at some anchor, the captured groups are passed to
`float()`: two valid decimals give that match's RA/Dec, and an invalid
group (no digit or two dots) raises the float `ValueError` instead of
`NotFound`. -/
theorem sesame_resolve_spec (net : SesameNet) (name : String) :
    (pystrip name = "" → sesame_resolve net name = (.error .invalidInput, 0)) ∧
    (∀ body, pystrip name ≠ "" → net.fetch (pystrip name) = .ok body →
      (sesame_resolve net name).2 = 1 ∧
      ((∀ l ∈ anchorSuffixes body.data, matchJpos l = none) →
        (sesame_resolve net name).1 =
          (if containsSub ("Nothing found").data body.data then
            .error .notFoundNothing else .error .notFoundNoLine)) ∧
      (∀ l₀ g1 g2,
        (anchorSuffixes body.data).find? (fun l => (matchJpos l).isSome) = some l₀ →
        matchJpos l₀ = some (g1, g2) →
        ((∀ ra dec, floatOfGroup g1 = some ra → floatOfGroup g2 = some dec →
            (sesame_resolve net name).1 = .ok (ra, dec)) ∧
          (floatOfGroup g1 = none →
            (sesame_resolve net name).1 = .error (.floatValueError g1)) ∧
          (∀ ra, floatOfGroup g1 = some ra → floatOfGroup g2 = none →
            (sesame_resolve net name).1 = .error (.floatValueError g2))))) := by
  constructor
  · intro h
    simp [sesame_resolve, h]
  · intro body hne hfetch
    have hres : sesame_resolve net name = (sesameParseBody body, 1) := by
      simp [sesame_resolve, hne, hfetch]
    rw [hres]
    refine ⟨rfl, ?_, ?_⟩
    · intro hall
      simp only [sesameParseBody, findSome?_eq_none_of_all matchJpos _ hall]
    · intro l₀ g1 g2 hfind hmatch
      have hsome : (anchorSuffixes body.data).findSome? matchJpos = some (g1, g2) := by
        rw [findSome?_eq_of_find? matchJpos _ l₀ hfind, hmatch]
      refine ⟨?_, ?_, ?_⟩
      · intro ra dec h1 h2
        simp [sesameParseBody, hsome, h1, h2]
      · intro h1
        simp [sesameParseBody, hsome, h1]
      · intro ra h1 h2
        simp [sesameParseBody, hsome, h1, h2]

/-- C9 witness: a concrete "Nothing found" body surfaces as the NotFound
diagnostic after exactly one request; and on the cross-newline body
`"%J 1\n2"` — where the regex whitespace spans the newline — the resolver
succeeds. -/
theorem sesame_resolve_spec_witness :
    ((sesame_resolve ⟨fun _ => .ok "Nothing found"⟩ "M81").1
        = .error .notFoundNothing ∧
      (sesame_resolve ⟨fun _ => .ok "Nothing found"⟩ "M81").2 = 1) ∧
    (∃ ra dec, (sesame_resolve ⟨fun _ => .ok "%J 1\n2"⟩ "M81").1
        = .ok (ra, dec)) := by
  constructor
  · have h := (sesame_resolve_spec ⟨fun _ => .ok "Nothing found"⟩ "M81").2
      "Nothing found" (by decide) rfl
    have h2 := h.2.1 (by decide)
    rw [if_pos (by decide)] at h2
    exact ⟨h2, h.1⟩
  · exact ⟨_, _, rfl⟩

/-! ### Acquisition: resolve-and-fetch service and the fallback loop

Embedding of `resolve_and_fetch`
(`application/resolve_and_fetch_service.py`), the survey map
(`domain/imaging.py`), the SkyView client as an oracle, and
`TaskOrchestrator._resolve_fetch_and_download`
(`galaxy_agent/orchestrator.py`, lines 168–255).
In the source every error below is a Python exception: `ValueError` for the
code's own raises, request/transport errors otherwise; the fallback loop
catches any of them per attempt.
-/

/-- Table `BAND_TO_SURVEY` from `domain/imaging.py`. -/
def BAND_TO_SURVEY : List (String × String) :=
  [("visible", "DSS"), ("optical", "DSS"), ("infrared", "2MASS-J"),
    ("ir", "2MASS-J"), ("ultraviolet", "GALEX"), ("uv", "GALEX")]

/-- Lookup `BAND_TO_SURVEY.get(band)`. -/
def bandLookup (b : String) : Option String :=
  (BAND_TO_SURVEY.find? (fun p => p.1 == b)).map (fun p => p.2)

/-- A resolved image URL: the structured SDSS fast-path URL, or a URL string
found by SkyView. -/
inductive ImageUrl
  | sdss (q : SdssQuery)
  | plain (u : String)
deriving DecidableEq

/-- Record `ResolvedTarget` from `domain/imaging.py`. -/
structure ResolvedTarget where
  ra_deg : ℚ
  dec_deg : ℚ
  name : Option String
  survey_used : String
  image_url : ImageUrl
  size_arcmin : ℚ
deriving DecidableEq

/-- Python exceptions reaching the fallback loop: the code's own
`ValueError`s and transport/HTTP errors. -/
inductive Exc
  | valueError (msg : String)
  | netError (msg : String)
deriving DecidableEq

/-- Rendering `str(exc)` as recorded by the loop. -/
def excMsg : Exc → String
  | .valueError m => m
  | .netError m => m

/-- Message of the unknown-band `ValueError` raised by the service. -/
def unknownBandMsg (band : String) : String :=
  "Unknown band '" ++ band ++
    "'. Use one of: ['visible', 'optical', 'infrared', 'ir', 'ultraviolet', 'uv']"

/-- Rendering `str(exc)` for the resolver's failures (messages as in the source). -/
def sesameExc (name : String) : SesameError → Exc
  | .invalidInput => .valueError "Object name cannot be empty"
  | .notFoundNothing =>
      .valueError ("SESAME returned no position for '" ++ name ++ "'")
  | .notFoundNoLine =>
      .valueError ("SESAME returned no position for '" ++ name ++ "' (no %J line)")
  | .floatValueError g =>
      .valueError ("could not convert string to float: '" ++ String.mk g ++ "'")
  | .network m => .netError m

/-- One network call of the acquisition path. -/
inductive NetCall
  | sesameCall (name : String)
  | skyviewCall (survey : String)
  | downloadCall (url : ImageUrl)
deriving DecidableEq

/-- Network effects of acquisition: the SESAME response body, the SkyView
query (already folded to the image URL it scans out, or its failure), and
the image download (non-2xx folded into the error case). -/
structure AcqNet where
  sesameFetch : String → Except String String
  skyview : ℚ → ℚ → String → ℚ → Except Exc String
  download : ImageUrl → Except String (List ℕ)

/-- Survey selection from a band hint
(`resolve_and_fetch_service.py`, lines 43–51). -/
def bandSurvey : Option String → Except Exc String
  | some b =>
    if pystrip b = "" then .error (.valueError "Provide either band or catalog.")
    else
      match bandLookup (pylower (pystrip b)) with
      | some s => .ok s
      | none => .error (.valueError (unknownBandMsg b))
  | none => .error (.valueError "Provide either band or catalog.")

/-- Survey selection: explicit catalog first, else the band map
(`resolve_and_fetch_service.py`, lines 40–51). -/
def chooseSurvey (band catalog : Option String) : Except Exc String :=
  match catalog with
  | some c => if pystrip c = "" then bandSurvey band else .ok (pystrip c)
  | none => bandSurvey band

/-- URL resolution for a survey: the SDSS fast path is purely built (no
network call); any other survey queries SkyView with the scale the client
derives (`skyview_client.py`, lines 37–44). -/
def urlFor (net : AcqNet) (ra dec : ℚ) (survey : String) (size : ℚ) :
    Except Exc ImageUrl × List NetCall :=
  if pyupper survey = "SDSS" then
    (.ok (.sdss (get_image_url ra dec size DEFAULT_PIXELS)), [])
  else
    match net.skyview ra dec survey (pyRound (size * 60 / 300) 4) with
    | .ok u => (.ok (.plain u), [NetCall.skyviewCall survey])
    | .error e => (.error e, [NetCall.skyviewCall survey])

/-- Survey selection plus URL resolution, once the position is known
(`resolve_and_fetch_service.py`, lines 40–75). -/
def afterPosition (net : AcqNet) (rname : Option String) (ra dec : ℚ)
    (band catalog : Option String) (size : ℚ) :
    Except Exc ResolvedTarget × List NetCall :=
  match chooseSurvey band catalog with
  | .error e => (.error e, [])
  | .ok survey =>
    match urlFor net ra dec survey size with
    | (.ok u, tr) => (.ok ⟨ra, dec, rname, survey, u, size⟩, tr)
    | (.error e, tr) => (.error e, tr)

/-- Truthiness of the name branch guard
(`name is not None and name.strip() != ""`). -/
def nameNonempty : Option String → Bool
  | some n => !(pystrip n).isEmpty
  | none => false

/-- Embedding of `resolve_and_fetch` (`resolve_and_fetch_service.py`, lines 13–75): name
or coordinates, then survey choice, then URL resolution.  Note the name is
resolved over the network before the survey/band is examined. -/
def resolve_and_fetch (net : AcqNet) (name : Option String)
    (ra_deg dec_deg : Option ℚ) (band catalog : Option String)
    (size_arcmin : ℚ) : Except Exc ResolvedTarget × List NetCall :=
  if nameNonempty name then
    if ra_deg.isSome || dec_deg.isSome then
      (.error (.valueError "Provide either name or (ra_deg, dec_deg), not both."), [])
    else
      let n := pystrip (name.getD "")
      match (sesame_resolve ⟨net.sesameFetch⟩ n).1 with
      | .error e => (.error (sesameExc n e), [.sesameCall n])
      | .ok (ra, dec) =>
        match afterPosition net (some n) ra dec band catalog size_arcmin with
        | (r, tr) => (r, .sesameCall n :: tr)
  else if ra_deg.isSome && dec_deg.isSome then
    afterPosition net none (ra_deg.getD 0) (dec_deg.getD 0) band catalog size_arcmin
  else
    (.error (.valueError "Provide either name or (ra_deg, dec_deg)."), [])

/-- The artifact store: per-request paths under a base directory
(`galaxy_agent/artifacts.py`). -/
structure ArtifactStore where
  base_dir : String
deriving DecidableEq

/-- Path of the `ArtifactStore.save_image` result path. -/
def ArtifactStore.save_image (st : ArtifactStore) (request_id : String) : String :=
  st.base_dir ++ "/" ++ request_id ++ "/image.jpg"

/-- Path of the `ArtifactStore.save_mask` result path. -/
def ArtifactStore.mask_path (st : ArtifactStore) (request_id : String) : String :=
  st.base_dir ++ "/" ++ request_id ++ "/mask.png"

/-- Path of the `ArtifactStore.save_measurements` result path. -/
def ArtifactStore.measurements_path (st : ArtifactStore) (request_id : String) :
    String :=
  st.base_dir ++ "/" ++ request_id ++ "/measurements.json"

/-- Path of the `ArtifactStore.save_report` result path. -/
def ArtifactStore.report_path (st : ArtifactStore) (request_id : String) : String :=
  st.base_dir ++ "/" ++ request_id ++ "/report.txt"

/-- The request fields `_resolve_fetch_and_download` reads: the target name
and the `ra_deg`/`dec_deg`, `catalog`, `band`, `size_arcmin` options. -/
structure FetchReq where
  request_id : String
  target_name : Option String
  ra_opt : Option ℚ
  dec_opt : Option ℚ
  catalog_opt : Option String
  band_opt : Option String
  size_opt : ℚ
deriving DecidableEq

/-- One attempt of the fallback loop (`orchestrator.py`, lines 203–233):
resolve by coordinates if both are present, else by the (stripped) target
name; then download the resolved URL and save it, returning the artifact
path. -/
def runAttempt (net : AcqNet) (st : ArtifactStore) (req : FetchReq)
    (a : Attempt) : Except Exc String × List NetCall :=
  let step1 : Except Exc ResolvedTarget × List NetCall :=
    if req.ra_opt.isSome && req.dec_opt.isSome then
      resolve_and_fetch net none req.ra_opt req.dec_opt a.2 a.1 req.size_opt
    else
      let nm := pystrip (req.target_name.getD "")
      if nm = "" then
        (.error (.valueError
          "Target name is empty; provide target.name or options ra_deg/dec_deg."), [])
      else
        resolve_and_fetch net (some nm) none none a.2 a.1 req.size_opt
  match step1 with
  | (.error e, tr) => (.error e, tr)
  | (.ok resolved, tr) =>
    match net.download resolved.image_url with
    | .error m => (.error (.netError m), tr ++ [.downloadCall resolved.image_url])
    | .ok _ => (.ok (st.save_image req.request_id), tr ++ [.downloadCall resolved.image_url])

/-- Label of a failed attempt (`catalog_param or band_param or "default"`). -/
def labelOf (a : Attempt) : String :=
  if pyTruthy a.1 then a.1.getD ""
  else if pyTruthy a.2 then a.2.getD ""
  else "default"

/-- The terminal `RuntimeError` of the loop: attempt count and the ordered
`"label: message"` entries. -/
structure ExhaustErr where
  attempts : ℕ
  errors : List String
deriving DecidableEq

/-- Message of the terminal `RuntimeError` (`orchestrator.py`, lines
252–255). -/
def exhaustMsg (e : ExhaustErr) : String :=
  "Failed to resolve and fetch image after " ++ toString e.attempts
    ++ " attempt(s): " ++ String.intercalate "; " e.errors

/-- The fallback loop (`orchestrator.py`, lines 201–255): first success
returns at once; every failure is recorded and the loop continues; at
exhaustion the accumulated errors are raised. -/
def fetchLoop (net : AcqNet) (st : ArtifactStore) (req : FetchReq)
    (total : ℕ) : List Attempt → List String → List NetCall →
      Except ExhaustErr String × List NetCall
  | [], errs, tr => (.error ⟨total, errs⟩, tr)
  | a :: rest, errs, tr =>
    match runAttempt net st req a with
    | (.ok path, tr2) => (.ok path, tr ++ tr2)
    | (.error e, tr2) =>
        fetchLoop net st req total rest
          (errs ++ [labelOf a ++ ": " ++ excMsg e]) (tr ++ tr2)

/-- Embedding of `TaskOrchestrator._resolve_fetch_and_download`: plan the attempts from
the hints, then run the fallback loop. -/
def _resolve_fetch_and_download (net : AcqNet) (st : ArtifactStore)
    (req : FetchReq) : Except ExhaustErr String × List NetCall :=
  let attempts := plan req.catalog_opt req.band_opt
  fetchLoop net st req attempts.length attempts [] []

/-- A non-empty string has `isEmpty = false`. -/
theorem isEmpty_false_of_ne {s : String} (h : s ≠ "") : s.isEmpty = false := by
  rw [Bool.eq_false_iff]
  simp [String.isEmpty_iff, h]

/-- If every attempt fails, the loop reaches exhaustion with every error
recorded in order and every attempt's network calls traced. -/
theorem fetchLoop_all_fail (net : AcqNet) (st : ArtifactStore) (req : FetchReq)
    (total : ℕ) (f : Attempt → Exc) :
    ∀ (attempts : List Attempt) (errs : List String) (tr : List NetCall),
      (∀ a ∈ attempts, (runAttempt net st req a).1 = .error (f a)) →
      fetchLoop net st req total attempts errs tr
        = (.error ⟨total, errs ++ attempts.map
              (fun a => labelOf a ++ ": " ++ excMsg (f a))⟩,
            tr ++ (attempts.map (fun a => (runAttempt net st req a).2)).join) := by
  intro attempts
  induction attempts with
  | nil => intro errs tr _; simp [fetchLoop]
  | cons a rest ih =>
      intro errs tr h
      have ha := h a (List.mem_cons_self a rest)
      cases hra : runAttempt net st req a with
      | mk r1 tr2 =>
          rw [hra] at ha
          simp only at ha
          subst ha
          simp only [fetchLoop, hra]
          rw [ih (errs ++ [labelOf a ++ ": " ++ excMsg (f a)]) (tr ++ tr2)
            (fun b hb => h b (List.mem_cons_of_mem a hb))]
          simp [hra, List.append_assoc]

/-- The first attempt that succeeds ends the loop at once: the result is its
artifact path, and only attempts up to it (inclusive) touch the network. -/
theorem fetchLoop_first_success (net : AcqNet) (st : ArtifactStore)
    (req : FetchReq) (total : ℕ) :
    ∀ (pre : List Attempt) (a : Attempt) (post : List Attempt)
      (errs : List String) (tr : List NetCall) (p : String),
      (∀ b ∈ pre, ∃ e, (runAttempt net st req b).1 = .error e) →
      (runAttempt net st req a).1 = .ok p →
      fetchLoop net st req total (pre ++ a :: post) errs tr
        = (.ok p, tr ++ (pre.map (fun b => (runAttempt net st req b).2)).join
            ++ (runAttempt net st req a).2) := by
  intro pre
  induction pre with
  | nil =>
      intro a post errs tr p _ hok
      cases hra : runAttempt net st req a with
      | mk r1 tr2 =>
          rw [hra] at hok
          simp only at hok
          subst hok
          simp [fetchLoop, hra]
  | cons b rest ih =>
      intro a post errs tr p hpre hok
      obtain ⟨e, he⟩ := hpre b (List.mem_cons_self b rest)
      cases hrb : runAttempt net st req b with
      | mk r1 tr2 =>
          rw [hrb] at he
          simp only at he
          subst he
          simp only [List.cons_append, fetchLoop, hrb, List.append_eq]
          rw [ih a post (errs ++ [labelOf b ++ ": " ++ excMsg e]) (tr ++ tr2) p
            (fun c hc => hpre c (List.mem_cons_of_mem b hc)) hok]
          simp [hrb, List.append_assoc]

/-- C3: the loop tries the planned attempts strictly in order — the first
attempt whose URL resolution and download succeed returns immediately, with
no later attempt touching the network; if every attempt fails, the result is
the exhausted error carrying the attempt count and the full ordered
`"label: message"` list (label: the attempt's catalog, else band, else
`"default"`); an explicit catalog hint plans exactly one attempt, so an
unreachable one exhausts after exactly one recorded failure. -/
theorem acquisition_loop_spec (net : AcqNet) (st : ArtifactStore)
    (req : FetchReq) :
    (∀ f : Attempt → Exc,
      (∀ a ∈ plan req.catalog_opt req.band_opt,
          (runAttempt net st req a).1 = .error (f a)) →
      _resolve_fetch_and_download net st req
        = (.error ⟨(plan req.catalog_opt req.band_opt).length,
              (plan req.catalog_opt req.band_opt).map
                (fun a => labelOf a ++ ": " ++ excMsg (f a))⟩,
            ((plan req.catalog_opt req.band_opt).map
              (fun a => (runAttempt net st req a).2)).join)) ∧
    (∀ pre a post p,
      plan req.catalog_opt req.band_opt = pre ++ a :: post →
      (∀ b ∈ pre, ∃ e, (runAttempt net st req b).1 = .error e) →
      (runAttempt net st req a).1 = .ok p →
      _resolve_fetch_and_download net st req
        = (.ok p, (pre.map (fun b => (runAttempt net st req b).2)).join
            ++ (runAttempt net st req a).2)) ∧
    (∀ c e, req.catalog_opt = some c → c ≠ "" →
      (runAttempt net st req (some (pystrip c), none)).1 = .error e →
      _resolve_fetch_and_download net st req
        = (.error ⟨1, [labelOf (some (pystrip c), none) ++ ": " ++ excMsg e]⟩,
            (runAttempt net st req (some (pystrip c), none)).2)) := by
  refine ⟨?_, ?_, ?_⟩
  · intro f hf
    unfold _resolve_fetch_and_download
    rw [fetchLoop_all_fail net st req _ f _ [] [] hf]
    simp
  · intro pre a post p hplan hpre hok
    unfold _resolve_fetch_and_download
    rw [hplan, fetchLoop_first_success net st req _ pre a post [] [] p hpre hok]
    simp
  · intro c e hcat hcne hfail
    have hplan : plan req.catalog_opt req.band_opt = [(some (pystrip c), none)] := by
      simp [plan, hcat, pyTruthy, String.isEmpty_iff, hcne]
    unfold _resolve_fetch_and_download
    rw [hplan, fetchLoop_all_fail net st req _ (fun _ => e) _ [] []
      (by intro a ha; simp at ha; subst ha; exact hfail)]
    simp

/-- Unreachable world and request for the C3 witness: an explicit catalog
hint `"FOO"` whose SkyView query fails. -/
def netW : AcqNet :=
  ⟨fun _ => .error "down", fun _ _ _ _ => .error (.netError "unreachable"),
    fun _ => .error "down"⟩

/-- Shared concrete artifact store for witnesses. -/
def stA : ArtifactStore := ⟨"artifacts"⟩

/-- Coordinate request with catalog hint `"FOO"` for the C3 witness. -/
def reqW : FetchReq := ⟨"req1", none, some 10, some 20, some "FOO", none, 10⟩

/-- C3 witness: with the explicit unreachable catalog hint `"FOO"`, the loop
fails after exactly one attempt, carrying that attempt's labelled error. -/
theorem acquisition_loop_spec_witness :
    _resolve_fetch_and_download netW stA reqW
      = (.error ⟨1, ["FOO: unreachable"]⟩, [NetCall.skyviewCall "FOO"]) := by
  have h := (acquisition_loop_spec netW stA reqW).2.2 "FOO"
    (.netError "unreachable") rfl (by decide) rfl
  exact h

/-- C2 (amended): for a request whose only hint is a non-empty band outside
the band-to-survey map, planning yields the single attempt `(none, band)`;
executing it raises the unknown-band `InvalidInput` (`ValueError`) inside
URL resolution — before any network call when the request carries
coordinates — but the fallback loop catches it as that attempt's recorded
failure, and acquisition surfaces the exhausted-attempts error carrying the
`InvalidInput` message; when the request carries a name instead, the
name-resolution network call happens before the unmapped-band failure.
(Stated for trimmed hints; `plan` trims hints before the attempt.) -/
theorem unmapped_band_spec (net : AcqNet) (st : ArtifactStore) (req : FetchReq)
    (b : String)
    (hcat : req.catalog_opt = none)
    (hband : req.band_opt = some b)
    (hbt : pystrip b = b)
    (hbne : b ≠ "")
    (hlk : bandLookup (pylower b) = none) :
    plan req.catalog_opt req.band_opt = [(none, some b)] ∧
    (req.ra_opt.isSome ∧ req.dec_opt.isSome →
      runAttempt net st req (none, some b)
          = (.error (.valueError (unknownBandMsg b)), []) ∧
      _resolve_fetch_and_download net st req
          = (.error ⟨1, [b ++ ": " ++ unknownBandMsg b]⟩, [])) ∧
    (∀ n ra dec, req.ra_opt = none → req.target_name = some n →
      pystrip n = n → n ≠ "" →
      (sesame_resolve ⟨net.sesameFetch⟩ n).1 = .ok (ra, dec) →
      _resolve_fetch_and_download net st req
          = (.error ⟨1, [b ++ ": " ++ unknownBandMsg b]⟩,
              [NetCall.sesameCall n])) := by
  have hv : pylower b ≠ "visible" := by
    intro h
    rw [h] at hlk
    exact absurd hlk (by decide)
  have ho : pylower b ≠ "optical" := by
    intro h
    rw [h] at hlk
    exact absurd hlk (by decide)
  have hplan : plan req.catalog_opt req.band_opt = [(none, some b)] := by
    simp [plan, hcat, hband, pyTruthy, String.isEmpty_iff, hbne, hbt, hv, ho]
  have hsurvey : bandSurvey (some b) = .error (.valueError (unknownBandMsg b)) := by
    simp [bandSurvey, hbt, hbne, hlk]
  refine ⟨hplan, ?_, ?_⟩
  · intro ⟨h1, h2⟩
    have hatt : runAttempt net st req (none, some b)
        = (.error (.valueError (unknownBandMsg b)), []) := by
      simp [runAttempt, h1, h2, resolve_and_fetch, nameNonempty,
        Option.isSome_iff_exists] at *
      simp [afterPosition, chooseSurvey, hsurvey, h1, h2]
    refine ⟨hatt, ?_⟩
    unfold _resolve_fetch_and_download
    rw [hplan, fetchLoop_all_fail net st req _
      (fun _ => .valueError (unknownBandMsg b)) _ [] []
      (by intro a ha; simp at ha; subst ha; rw [hatt])]
    simp [labelOf, pyTruthy, isEmpty_false_of_ne hbne, hatt, excMsg]
  · intro n ra dec h1 h2 hnt hnne hses
    have hatt : runAttempt net st req (none, some b)
        = (.error (.valueError (unknownBandMsg b)), [NetCall.sesameCall n]) := by
      simp only [runAttempt, h1]
      rw [if_neg (by simp [h1])]
      rw [h2]
      simp only [Option.getD_some, hnt]
      rw [if_neg hnne]
      simp only [resolve_and_fetch, nameNonempty, hnt]
      rw [if_pos (by simp [isEmpty_false_of_ne hnne])]
      rw [if_neg (by simp)]
      simp only [Option.getD_some, hnt, hses]
      simp [afterPosition, chooseSurvey, hsurvey]
    unfold _resolve_fetch_and_download
    rw [hplan, fetchLoop_all_fail net st req _
      (fun _ => .valueError (unknownBandMsg b)) _ [] []
      (by intro a ha; simp at ha; subst ha; rw [hatt])]
    simp [labelOf, pyTruthy, isEmpty_false_of_ne hbne, hatt, excMsg]

/-- World for the C2 counterexample: the name resolves over the network. -/
def netC2 : AcqNet :=
  ⟨fun _ => .ok "%J 10.0 20.0", fun _ _ _ _ => .error (.netError "skyview down"),
    fun _ => .ok []⟩

/-- Name-target request with the unmapped band `"xray"`. -/
def reqC2 : FetchReq := ⟨"req2", some "M81", none, none, none, some "xray", 10⟩

/-- C2 (counterexample): for a name-target request with band `"xray"`, a
name-resolution network call happens before the unmapped-band failure, and
acquisition surfaces the exhausted-attempts error with the unknown-band
`ValueError` recorded as the attempt's failure — not an immediate
`InvalidInput`. -/
theorem unmapped_band_counterexample :
    (_resolve_fetch_and_download netC2 stA reqC2).2 = [NetCall.sesameCall "M81"] ∧
    (_resolve_fetch_and_download netC2 stA reqC2).1
      = .error ⟨1, ["xray: " ++ unknownBandMsg "xray"]⟩ := by
  constructor <;> rfl

/-- C2 witness: a coordinate request with band `"xray"` fails with the
unknown-band error recorded, with an empty network trace. -/
theorem unmapped_band_spec_witness :
    _resolve_fetch_and_download netC2 stA ⟨"req3", none, some 1, some 2, none, some "xray", 10⟩
      = (.error ⟨1, ["xray: " ++ unknownBandMsg "xray"]⟩, []) := by
  have h := (unmapped_band_spec netC2 stA
    ⟨"req3", none, some 1, some 2, none, some "xray", 10⟩ "xray"
    rfl rfl (by decide) (by decide) (by decide)).2.1 ⟨rfl, rfl⟩
  exact h.2

/-! ### Event stream: orchestrator and agent runner

Embedding of `TaskOrchestrator.run_stream` (`orchestrator.py`, lines
74–166) and `AgentRunner.run_stream` (`agent_runner.py`, lines 125–189).
A generator is modelled as the list of events it yields plus the exception
escaping it, if any; the consumer-side `except` of `AgentRunner.run_stream`
turns that exception into a final error event.  Fallible collaborators
(image loading/decoding, artifact writes, LLM calls, request enrichment)
are oracles.  The `Provenance` timestamp (wall clock) is omitted; the
version map is kept.  The report text (`tool_generate_report`) is not
observable in the stream — its file write is the `saveReport` oracle — so
its dict rendering is not reproduced.
-/

/-- An artifact reference `{type, path}`. -/
structure Artifact where
  type : String
  path : String
deriving DecidableEq

/-- A value of the `results` map. -/
inductive ResultVal
  | segMeta (threshold : ℚ) (mask_pixels : ℚ) (algorithm : String)
  | meas (m : Measurements)
deriving DecidableEq

/-- The fields of the final response carried by the `end` event. -/
structure RespData where
  request_id : String
  status : String
  summary : String
  results : List (String × ResultVal)
  artifacts : List Artifact
  versions : List (String × String)
  warnings : List String
deriving DecidableEq

/-- The SSE-style events of the stream. -/
inductive Event
  | status (message : String)
  | summaryEv (summary : String)
  | artifactsEv (request_id : String)
  | endEv (resp : RespData)
  | errorEv (message : String)
deriving DecidableEq

/-- The two terminal event kinds. -/
def isTerminal : Event → Bool
  | .endEv _ => true
  | .errorEv _ => true
  | _ => false

/-- Modelled from the spec: `packages/galaxy_agent/models.py` (the request
model `AnalyzeRequest`) is not under `src/`; its fields are reconstructed
from `domain/models.py` and from every use in `agent_runner.py`,
`orchestrator.py` and `langchain_backend.py` — optional target (carrying the
target's name), optional task string, optional image URL, the
`ra_deg`/`dec_deg`/`catalog`/`band`/`size_arcmin` options, and the
enrichment fields `out_of_scope`/`decline_message`. -/
structure ARequest where
  request_id : String
  target_name : Option String
  task : Option String
  image_url : Option String
  ra_deg : Option ℚ
  dec_deg : Option ℚ
  catalog : Option String
  band : Option String
  size_arcmin : ℚ
  out_of_scope : Bool
  decline_message : Option String
deriving DecidableEq

/-- The orchestrator's view of the request for acquisition. -/
def toFetchReq (r : ARequest) : FetchReq :=
  ⟨r.request_id, r.target_name, r.ra_deg, r.dec_deg, r.catalog, r.band,
    r.size_arcmin⟩

/-- The LLM backend as an oracle (its two summary generators can fail). -/
structure Backend where
  caption : Except String String
  accompany : Except String String

/-- Effects of one `TaskOrchestrator.run_stream` run. -/
structure OrchWorld where
  net : AcqNet
  st : ArtifactStore
  load : Option String → Except String Mat
  saveMask : Except String Unit
  saveMeasurements : Except String Unit
  saveReport : Except String Unit
  backend : Option Backend
  sqrtf : ℚ → ℚ

/-- Expression `(request.target and request.target.name) or "galaxia"`. -/
def displayName (r : ARequest) : String :=
  match r.target_name with
  | some n => if n = "" then "galaxia" else n
  | none => "galaxia"

/-- Expression `str(band) if band else "visible"`. -/
def effectiveBand (r : ARequest) : String :=
  match r.band with
  | some b => if b = "" then "visible" else b
  | none => "visible"

/-- The version map of `Provenance` (`orchestrator.py`, lines 266–272). -/
def versionsOf (langsmith : Bool) : List (String × String) :=
  [("galaxy_core", "0.1.0"), ("galaxy_agent", "0.1.0"),
    ("langsmith_enabled", if langsmith then "true" else "false")]

/-- Embedding of `TaskOrchestrator._build_response`: always status `"success"`. -/
def buildResponse (r : ARequest) (summary : String)
    (results : List (String × ResultVal)) (artifacts : List Artifact)
    (langsmith : Bool) : RespData :=
  ⟨r.request_id, "success", summary, results, artifacts,
    versionsOf langsmith, []⟩

/-- The tail of the stream after a successful pipeline: summary event, an
artifacts event when any artifact exists, then the end event. -/
def finishStream (evs : List Event) (r : ARequest) (summary : String)
    (results : List (String × ResultVal)) (artifacts : List Artifact)
    (langsmith : Bool) : List Event × Option String :=
  let resp := buildResponse r summary results artifacts langsmith
  (evs ++ [.summaryEv resp.summary]
    ++ (if artifacts.isEmpty then [] else [.artifactsEv r.request_id])
    ++ [.endEv resp], none)

/-- Decimal rendering of a rational with `n` fixed decimal places (Python
`format(x, '.nf')`, ties to even). -/
def ratToFixed (q : ℚ) (n : ℕ) : String :=
  let r := roundHalfEven (q * 10 ^ n)
  let sign := if r < 0 then "-" else ""
  let m := r.natAbs
  if n = 0 then sign ++ toString m
  else
    let frac := toString (m % 10 ^ n)
    let pad := String.mk (List.replicate (n - frac.length) '0')
    sign ++ toString (m / 10 ^ n) ++ "." ++ pad ++ frac

/-- Embedding of `BasicGalaxyAnalyzer.morphology_summary`
(`analyzer_service.py`, lines 60–67). -/
def morphology_summary (m : Measurements) : String :=
  "Detected galaxy-like structure with area ~" ++ ratToFixed m.area_pixels 0
    ++ " pixels, ellipticity " ++ ratToFixed m.ellipticity 2
    ++ ", and mean intensity " ++ ratToFixed m.mean_intensity 2 ++ "."

/-- The resolve-and-download stage of `run_stream` (lines 80–83): skipped
when an image URL is present or no target is given; on failure the
`RuntimeError` escapes after the first status event. -/
def stage_fetch (w : OrchWorld) (r : ARequest) :
    List Event × Except String ARequest :=
  if r.image_url = none ∧ r.target_name ≠ none then
    match _resolve_fetch_and_download w.net w.st (toFetchReq r) with
    | (.ok path, _) =>
        ([.status "Resolviendo galaxia y descargando imagen…",
          .status "Imagen descargada."],
          .ok { r with image_url := some path })
    | (.error e, _) =>
        ([.status "Resolviendo galaxia y descargando imagen…"],
          .error (exhaustMsg e))
  else ([], .ok r)

/-- The image caption of the `fetch_image` branch (lines 88–104). -/
def fetchImageSummary (w : OrchWorld) (r : ARequest) : Except String String :=
  match w.backend with
  | some be => be.caption
  | none =>
      .ok ("Aquí tienes la imagen de " ++ displayName r ++ " en banda "
        ++ effectiveBand r ++ ".")

/-- Embedding of `TaskOrchestrator.run_stream`: the events yielded, and the exception
escaping the generator, if any. -/
def orch_run_stream (w : OrchWorld) (r0 : ARequest) (langsmith : Bool) :
    List Event × Option String :=
  match stage_fetch w r0 with
  | (evs, .error e) => (evs, some e)
  | (evs, .ok r) =>
    let artifacts0 : List Artifact :=
      match r.image_url with
      | some u => if u = "" then [] else [⟨"image", u⟩]
      | none => []
    if r.task = some "fetch_image" then
      match fetchImageSummary w r with
      | .error e => (evs, some e)
      | .ok summary => finishStream evs r summary [] artifacts0 langsmith
    else
      let evs1 := evs ++ [.status "Segmentando imagen…"]
      match w.load r.image_url with
      | .error e => (evs1, some e)
      | .ok image =>
        let seg := segment_galaxy (3/4) image
        match w.saveMask with
        | .error e => (evs1, some e)
        | .ok _ =>
          let artifacts1 := artifacts0 ++ [⟨"mask", w.st.mask_path r.request_id⟩]
          let results1 : List (String × ResultVal) :=
            [("segmentation_metadata",
              .segMeta seg.threshold seg.mask_pixels seg.algorithm)]
          if r.task = some "measure_basic" ∨ r.task = some "morphology_summary" then
            let evs2 := evs1 ++ [.status "Calculando medidas…"]
            match measure_basic w.sqrtf image seg.mask with
            | .error _ => (evs2, some "image and mask must have the same shape")
            | .ok m =>
              match w.saveMeasurements with
              | .error e => (evs2, some e)
              | .ok _ =>
                let artifacts2 :=
                  artifacts1 ++ [⟨"report", w.st.measurements_path r.request_id⟩]
                let results2 := results1 ++ [("measurements", .meas m)]
                if r.task = some "morphology_summary" then
                  let evs3 := evs2 ++ [.status "Generando resumen…"]
                  match w.saveReport with
                  | .error e => (evs3, some e)
                  | .ok _ =>
                    let artifacts3 :=
                      artifacts2 ++ [⟨"report", w.st.report_path r.request_id⟩]
                    match (match w.backend with
                           | some be => be.accompany
                           | none => .ok (morphology_summary m)) with
                    | .error e => (evs3, some e)
                    | .ok summary =>
                        finishStream evs3 r summary results2 artifacts3 langsmith
                else
                  finishStream evs2 r "Basic measurements computed." results2
                    artifacts2 langsmith
          else
            finishStream evs1 r "Segmentation completed." results1 artifacts1
              langsmith

/-- Effects of one `AgentRunner.run_stream` run: the orchestrator world,
the enrichment result on this request (or the exception it raises), and the
`_prepare_llm_plan` scaffold call. -/
structure AgentWorld where
  orch : OrchWorld
  enrich : Except String ARequest
  prepare : Except String Unit

/-- Embedding of `AgentRunner._resolve_request`: default target and task for the
natural-language path. -/
def _resolve_request (r : ARequest) : ARequest :=
  if r.target_name.isSome ∧ r.task.isSome then r
  else
    { r with
      target_name := some (r.target_name.getD "from conversation"),
      task := some (r.task.getD "morphology_summary") }

/-- The guard message for an empty or placeholder target. -/
def placeholderMsg : String :=
  "Indica de qué galaxia quieres la imagen o el análisis (por nombre, p. ej. M104, o por coordenadas). Puedes añadir la banda: visible, infrarrojo o ultravioleta."

/-- Embedding of `AgentRunner.run_stream`: enrichment, the out-of-scope and placeholder
early returns, then the orchestrator stream; any exception anywhere becomes
one final error event. -/
def agent_run_stream (w : AgentWorld) (req : ARequest) (langsmith : Bool) :
    List Event :=
  match w.enrich with
  | .error e => [.errorEv e]
  | .ok enr =>
    if enr.out_of_scope ∧ pyTruthy enr.decline_message then
      let msg := enr.decline_message.getD ""
      [.summaryEv msg,
        .endEv ⟨req.request_id, "success", msg, [], [], versionsOf langsmith, []⟩]
    else
      let resolved := _resolve_request enr
      if resolved.target_name.isSome ∧
          (pystrip (resolved.target_name.getD "") = "" ∨
            pystrip (resolved.target_name.getD "") = "from conversation") ∧
          ¬ pyTruthy resolved.image_url then
        [.summaryEv placeholderMsg,
          .endEv ⟨req.request_id, "success", placeholderMsg, [], [],
            versionsOf langsmith, []⟩]
      else
        match w.prepare with
        | .error e => [.errorEv e]
        | .ok _ =>
          match orch_run_stream w.orch resolved langsmith with
          | (evs, none) => evs
          | (evs, some e) => evs ++ [.errorEv e]

/-- Shape invariant of a generator run: an escaped exception leaves only
non-terminal events behind; a clean finish ends in exactly one end event
preceded by non-terminal events. -/
def StreamOk : List Event × Option String → Prop
  | (evs, none) => ∃ init resp, evs = init ++ [Event.endEv resp] ∧
      init.all (fun ev => !isTerminal ev) = true
  | (evs, some _) => evs.all (fun ev => !isTerminal ev) = true

/-- Status events are not terminal. -/
theorem isTerminal_status (m : String) : isTerminal (.status m) = false := rfl

/-- Summary events are not terminal. -/
theorem isTerminal_summary (s : String) : isTerminal (.summaryEv s) = false := rfl

/-- Artifacts events are not terminal. -/
theorem isTerminal_artifacts (i : String) :
    isTerminal (.artifactsEv i) = false := rfl

/-- The fetch stage only yields status events. -/
theorem stage_fetch_nonterminal (w : OrchWorld) (r : ARequest) :
    (stage_fetch w r).1.all (fun ev => !isTerminal ev) = true := by
  unfold stage_fetch
  split
  · split <;> simp [isTerminal]
  · simp

/-- Lemma: `finishStream` on non-terminal events satisfies the shape invariant. -/
theorem StreamOk_finish (evs : List Event) (r : ARequest) (summary : String)
    (results : List (String × ResultVal)) (artifacts : List Artifact)
    (ls : Bool) (h : evs.all (fun ev => !isTerminal ev) = true) :
    StreamOk (finishStream evs r summary results artifacts ls) := by
  refine ⟨evs ++ [.summaryEv summary]
      ++ (if artifacts.isEmpty then [] else [.artifactsEv r.request_id]),
    buildResponse r summary results artifacts ls, ?_, ?_⟩
  · simp [finishStream, buildResponse, List.append_assoc]
  · by_cases ha : artifacts.isEmpty <;>
      simp [ha, List.all_append, h, isTerminal_summary, isTerminal_artifacts]

/-- Every orchestrator stream satisfies the shape invariant. -/
theorem orch_run_stream_ok (w : OrchWorld) (r : ARequest) (ls : Bool) :
    StreamOk (orch_run_stream w r ls) := by
  have hf := stage_fetch_nonterminal w r
  unfold orch_run_stream
  cases hsf : stage_fetch w r with
  | mk evs0 rr =>
    rw [hsf] at hf
    simp only at hf
    cases rr with
    | error e => exact hf
    | ok r1 =>
      dsimp only
      repeat' split
      all_goals
        first
        | exact hf
        | (apply StreamOk_finish
            <;> simp [List.all_append, hf, isTerminal_status])
        | (show StreamOk (_, some _)
           simp [StreamOk, List.all_append, hf, isTerminal_status])

/-- C4: the event stream of the public streaming entry point always ends in
exactly one terminal event — an end event carrying the final response or a
single error event — preceded only by non-terminal events; every failure
(enrichment, planning, acquisition exhaustion, analysis, artifact writes)
surfaces as that error event rather than as an uncaught exception. -/
theorem run_stream_terminal_event (w : AgentWorld) (req : ARequest) (ls : Bool) :
    ∃ init t, agent_run_stream w req ls = init ++ [t] ∧
      init.all (fun ev => !isTerminal ev) = true ∧
      isTerminal t = true := by
  unfold agent_run_stream
  cases w.enrich with
  | error e => exact ⟨[], .errorEv e, rfl, rfl, rfl⟩
  | ok enr =>
    dsimp only
    split
    · exact ⟨[.summaryEv (enr.decline_message.getD "")], _, rfl, by simp [isTerminal], rfl⟩
    · split
      · exact ⟨[.summaryEv placeholderMsg], _, rfl, by simp [isTerminal], rfl⟩
      · cases w.prepare with
        | error e => exact ⟨[], .errorEv e, rfl, rfl, rfl⟩
        | ok u =>
          dsimp only
          have hok := orch_run_stream_ok w.orch (_resolve_request enr) ls
          cases hors : orch_run_stream w.orch (_resolve_request enr) ls with
          | mk evs exc =>
            rw [hors] at hok
            cases exc with
            | none =>
                obtain ⟨init, resp, heq, hinit⟩ := hok
                exact ⟨init, .endEv resp, heq, hinit, rfl⟩
            | some e =>
                exact ⟨evs, .errorEv e, rfl, hok, rfl⟩

end Galaxy
